import Mathlib

/-!
Verification of the credential authentication and token-issuance subsystem
of the task-manager repository: password policy validation
(`services/frontend/src/pages/Register.jsx`), the auth HTTP service
(`services/auth-service/server.js`) — registration, login, token
verification — and the rate-limiter configuration.

Strings are modelled as sequences of characters (`String` / `List Char`);
all concrete inputs used in the development are ASCII, where the JavaScript
UTF-16 `length` agrees with the character count.
-/

namespace AuthCore

/-! ### Character classes

`[a-z]`, `[A-Z]`, `\d` and the two special-character sets appearing in the
regexes of `Register.jsx` (`[@$!%*?&#]`) and `server.js` (`[@$!%*?&]`). -/

def isLowerLetter (c : Char) : Bool := 'a' ≤ c && c ≤ 'z'

def isUpperLetter (c : Char) : Bool := 'A' ≤ c && c ≤ 'Z'

def isDigitChar (c : Char) : Bool := '0' ≤ c && c ≤ '9'

def frontendSpecials : List Char := ['@', '$', '!', '%', '*', '?', '&', '#']

def serverSpecials : List Char := ['@', '$', '!', '%', '*', '?', '&']

/-! ### Frontend password policy validator (`Register.jsx`, lines 13–39) -/

def lengthOk (p : String) : Bool := decide (12 ≤ p.length)

def hasLower (p : String) : Bool := p.data.any isLowerLetter

def hasUpper (p : String) : Bool := p.data.any isUpperLetter

def hasDigit (p : String) : Bool := p.data.any isDigitChar

def hasSpecialFrontend (p : String) : Bool := p.data.any frontendSpecials.contains

/-- Result object of `validatePassword` in `Register.jsx`: `score`, `label`,
the joined feedback message, and `isValid`.  The `feedback` field keeps the
underlying array of messages pushed by the source before it is joined into
`feedbackMsg`. -/
structure StrengthResult where
  score : Nat
  label : String
  feedbackMsg : String
  feedback : List String
  isValid : Bool
deriving Repr, DecidableEq

def strengthLabels : List String := ["Very Weak", "Weak", "Fair", "Good", "Strong"]

/-- Function `validatePassword` from `Register.jsx` lines 13–39: five sequential
checks, each adding one point to `score` or a message to `feedback`;
`label` is `strengthLabels[score]` with the first label as fallback and
`isValid` is `score >= 5`. -/
def validatePassword (password : String) : StrengthResult :=
  let score1 := if lengthOk password then 1 else 0
  let feedback1 : List String :=
    if lengthOk password then [] else ["at least 12 characters"]
  let score2 := if hasLower password then score1 + 1 else score1
  let feedback2 :=
    if hasLower password then feedback1 else feedback1 ++ ["lowercase letter"]
  let score3 := if hasUpper password then score2 + 1 else score2
  let feedback3 :=
    if hasUpper password then feedback2 else feedback2 ++ ["uppercase letter"]
  let score4 := if hasDigit password then score3 + 1 else score3
  let feedback4 :=
    if hasDigit password then feedback3 else feedback3 ++ ["number"]
  let score5 := if hasSpecialFrontend password then score4 + 1 else score4
  let feedback5 :=
    if hasSpecialFrontend password then feedback4
    else feedback4 ++ ["special character (@$!%*?&#)"]
  let label :=
    match strengthLabels.get? score5 with
    | some l => if l = "" then "Very Weak" else l
    | none => "Very Weak"
  let msg :=
    if 0 < feedback5.length then "Missing: " ++ String.intercalate ", " feedback5
    else "Strong password!"
  ⟨score5, label, msg, feedback5, decide (5 ≤ score5)⟩

/-- The five password criteria of the Password Policy Validator in the spec. -/
inductive Criterion where
  | minLength
  | lower
  | upper
  | digit
  | special
deriving Repr, DecidableEq

def allCriteria : List Criterion := [.minLength, .lower, .upper, .digit, .special]

/-- Whether password `p` satisfies criterion `c`, criterion by criterion. -/
def satisfies (p : String) : Criterion → Bool
  | .minLength => lengthOk p
  | .lower => hasLower p
  | .upper => hasUpper p
  | .digit => hasDigit p
  | .special => hasSpecialFrontend p

/-- The feedback string `Register.jsx` pushes for a missing criterion. -/
def criterionFeedback : Criterion → String
  | .minLength => "at least 12 characters"
  | .lower => "lowercase letter"
  | .upper => "uppercase letter"
  | .digit => "number"
  | .special => "special character (@$!%*?&#)"

theorem validatePassword_isValid (p : String) :
    (validatePassword p).isValid =
      (lengthOk p && hasLower p && hasUpper p && hasDigit p && hasSpecialFrontend p) := by
  cases h1 : lengthOk p <;> cases h2 : hasLower p <;> cases h3 : hasUpper p <;>
    cases h4 : hasDigit p <;> cases h5 : hasSpecialFrontend p <;>
    simp [validatePassword, h1, h2, h3, h4, h5]

/-- C1: the score of the Password Policy Validator equals the number of the five
criteria the password satisfies; `isValid` holds iff all five criteria hold;
and the feedback message of every missed criterion is in the returned feedback. -/
theorem c1_password_policy_validator (p : String) :
    (validatePassword p).score = (allCriteria.filter (fun c => satisfies p c)).length
    ∧ ((validatePassword p).isValid = true ↔ ∀ c ∈ allCriteria, satisfies p c = true)
    ∧ (∀ c ∈ allCriteria, satisfies p c = false →
        criterionFeedback c ∈ (validatePassword p).feedback) := by
  cases h1 : lengthOk p <;> cases h2 : hasLower p <;> cases h3 : hasUpper p <;>
    cases h4 : hasDigit p <;> cases h5 : hasSpecialFrontend p <;>
    simp [validatePassword, allCriteria, satisfies, criterionFeedback,
      h1, h2, h3, h4, h5]

/-- Witness for C1 at the concrete password `"abc"` (missing length, upper,
digit and special): the feedback contains the missed length criterion. -/
theorem c1_password_policy_validator_witness :
    "at least 12 characters" ∈ (validatePassword "abc").feedback :=
  (c1_password_policy_validator "abc").2.2 .minLength (by decide) (by decide)

/-! ### Server-side password validation (`server.js`, lines 114–118)

The chain `body(password).isLength(min 12).matches(regex)` carries the regex
`^(?=.*[a-z])(?=.*[A-Z])(?=.*\d)(?=.*[@$!%*?&])[A-Za-z\d@$!%*?&]`.
In a JavaScript regex without the `s` flag, `.` matches every character
except a line terminator, so each lookahead `(?=.*X)` demands an `X`
within the longest line-terminator-free prefix; the trailing character
class constrains only the first character (it is not anchored at the end
and carries no repetition). -/

def isLineTerm (c : Char) : Bool :=
  c = '\n' || c = '\r' || c = ' ' || c = ' '

def beforeLineTerm (p : String) : List Char :=
  p.data.takeWhile (fun c => !isLineTerm c)

def isServerPasswordChar (c : Char) : Bool :=
  isLowerLetter c || isUpperLetter c || isDigitChar c || serverSpecials.contains c

/-- Whether the `server.js` password regex matches `p`. -/
def serverRegexOk (p : String) : Bool :=
  (beforeLineTerm p).any isLowerLetter &&
  (beforeLineTerm p).any isUpperLetter &&
  (beforeLineTerm p).any isDigitChar &&
  (beforeLineTerm p).any serverSpecials.contains &&
  (match p.data with
   | [] => false
   | c :: _ => isServerPasswordChar c)

/-- Whether the server-side `validatePassword` chain of `server.js`
(lines 114–118) accepts password `p`: minimum length 12 and the regex. -/
def serverPasswordOk (p : String) : Bool :=
  decide (12 ≤ p.length) && serverRegexOk p

theorem mem_of_mem_takeWhile (q : Char → Bool) (l : List Char) (c : Char)
    (h : c ∈ l.takeWhile q) : c ∈ l := by
  induction l with
  | nil => simp at h
  | cons a as ih =>
    cases hq : q a with
    | true =>
      rw [List.takeWhile_cons, if_pos hq] at h
      rcases List.mem_cons.mp h with h1 | h2
      · exact h1 ▸ List.mem_cons_self a as
      · exact List.mem_cons_of_mem a (ih h2)
    | false =>
      rw [List.takeWhile_cons, if_neg (by simp [hq])] at h
      simp at h

theorem any_of_beforeLineTerm (p : String) (f : Char → Bool)
    (h : (beforeLineTerm p).any f = true) : p.data.any f = true := by
  rcases List.any_eq_true.mp h with ⟨c, hc, hfc⟩
  exact List.any_eq_true.mpr ⟨c, mem_of_mem_takeWhile _ _ _ hc, hfc⟩

/-- C2 counterexample: the password `"Abcdefghijk1#"` is accepted by the
frontend validator (its special-character set contains `#`) but rejected by
the server-side check (its set `@$!%*?&` omits `#`), so the two checks do
not accept the same set of passwords. -/
theorem c2_counterexample :
    (validatePassword "Abcdefghijk1#").isValid = true ∧
      serverPasswordOk "Abcdefghijk1#" = false := by
  constructor <;> decide

/-- C2 amended: every password the server-side registration check accepts is
accepted by the frontend Password Policy Validator, but not conversely. -/
theorem c2_server_check_refines_frontend (p : String)
    (h : serverPasswordOk p = true) : (validatePassword p).isValid = true := by
  rw [validatePassword_isValid]
  simp only [serverPasswordOk, serverRegexOk, Bool.and_eq_true] at h
  obtain ⟨hlen, ⟨⟨⟨hlow, hup⟩, hdig⟩, hsp⟩, hfirst⟩ := h
  clear hfirst
  have hsp2 : p.data.any frontendSpecials.contains = true := by
    rcases List.any_eq_true.mp (any_of_beforeLineTerm p _ hsp) with ⟨c, hc, hfc⟩
    refine List.any_eq_true.mpr ⟨c, hc, ?_⟩
    revert hfc
    simp [serverSpecials, frontendSpecials]
    rintro (h | h | h | h | h | h | h) <;> simp [h]
  simp [lengthOk, hlen, hasLower, hasUpper, hasDigit, hasSpecialFrontend,
    any_of_beforeLineTerm p _ hlow, any_of_beforeLineTerm p _ hup,
    any_of_beforeLineTerm p _ hdig, hsp2]

/-- Witness for the amended C2 theorem at the concrete password
`"Abcdefgh1jk@"`, which the server accepts. -/
theorem c2_server_check_refines_frontend_witness :
    (validatePassword "Abcdefgh1jk@").isValid = true :=
  c2_server_check_refines_frontend "Abcdefgh1jk@" (by decide)

/-! ### Tokens (`jsonwebtoken` calls in `server.js`) -/

/-- Payload of a signed token: user id, username, issued-at, expiry (seconds). -/
structure JwtPayload where
  userId : Nat
  username : String
  iat : Nat
  exp : Nat
deriving Repr, DecidableEq

/-- Modelled from the spec: the `jsonwebtoken` library invoked at
`server.js` lines 193–197 and 221 is not part of the repository; §4.4 of the
spec gives its contract.  A signed token carries its payload and a signature;
the HMAC signature is modelled as the signing secret itself, so two
signatures match exactly when the secrets agree. -/
structure JwtToken where
  payload : JwtPayload
  sig : String
deriving Repr, DecidableEq

/-- Modelled from the spec: `jwt.sign({userId, username}, secret,
expiresIn 24h)` — issued-at `now` (seconds) and absolute expiry
`now + 24*60*60` (`server.js` lines 193–197). -/
def jwtSign (secret : String) (userId : Nat) (username : String) (now : Nat) : JwtToken :=
  ⟨⟨userId, username, now, now + 24 * 60 * 60⟩, secret⟩

/-- Modelled from the spec: `jwt.verify(token, secret)` at clock time `now` —
succeeds with the payload when the signature matches and the expiry has not
passed (the library rejects exactly when `now ≥ exp`); otherwise it throws,
modelled as `none`. -/
def jwtVerify (secret : String) (now : Nat) (t : JwtToken) : Option JwtPayload :=
  if t.sig = secret ∧ now < t.payload.exp then some t.payload else none

/-! ### HTTP responses and the user store -/

/-- JSON bodies the auth service sends. -/
inductive JsonBody where
  | errorMsg (msg : String)
  | loginOk (token : JwtToken) (userId : Nat) (username : String)
  | verifyOk (userId : Nat) (username : String)
  | registerOk (userId : Nat)
deriving Repr, DecidableEq

structure HttpResponse where
  status : Nat
  body : JsonBody
deriving Repr, DecidableEq

/-- JavaScript truthiness of `process.env.JWT_SECRET`: an unset variable or
the empty string is falsy. -/
def secretFalsy : Option String → Bool
  | none => true
  | some s => s.isEmpty

/-- Whitespace for the JavaScript `String.prototype.trim` (the ASCII portion;
every input in this development is ASCII). -/
def isJsWhitespace (c : Char) : Bool :=
  c = ' ' || c = '\t' || c = '\n' || c = '\r' || c = '\x0b' || c = '\x0c'

/-- JavaScript `String.prototype.trim`, as applied by the
express-validator `trim()` sanitizer: strip whitespace from both ends. -/
def jsTrim (s : String) : String :=
  ⟨(((s.data.dropWhile isJsWhitespace).reverse.dropWhile isJsWhitespace).reverse)⟩

/-- A row of the `users` table: id, unique username, bcrypt password hash. -/
structure UserRec where
  id : Nat
  username : String
  password : String
deriving Repr, DecidableEq

/-- Query `SELECT * FROM users WHERE username = ?`: the rows whose username equals
the queried one, in store order. -/
def findByUsername (store : List UserRec) (u : String) : List UserRec :=
  store.filter (fun r => r.username = u)

/-! ### Login endpoint (`server.js` lines 159–205)

`bcryptCompare` stands for the verification primitive of the bcrypt library;
`secret` is `process.env.JWT_SECRET`, `now` the clock in seconds.  The
express-validator chain `body(username).trim().notEmpty()` trims the
username in place before the non-emptiness check (the password has no
`trim()`), so the handler works with the trimmed username. -/

/-- The login handler, instrumented: the returned `Bool` records whether
`bcryptCompare` was invoked.  Mirrors the source:
`const isValidPassword = user ? await bcrypt.compare(...) : false`. -/
def loginTraced (bcryptCompare : String → String → Bool) (secret : Option String)
    (now : Nat) (store : List UserRec) (username password : String) :
    HttpResponse × Bool :=
  if (jsTrim username) = "" ∨ password = "" then
    (⟨400, .errorMsg "Username and password required"⟩, false)
  else
    let users := findByUsername store (jsTrim username)
    match users.head? with
    | none => (⟨401, .errorMsg "Invalid credentials"⟩, false)
    | some user =>
      let isValidPassword := bcryptCompare password user.password
      if !isValidPassword then (⟨401, .errorMsg "Invalid credentials"⟩, true)
      else
        match secret with
        | none => (⟨500, .errorMsg "Server configuration error"⟩, true)
        | some s =>
          if s.isEmpty then (⟨500, .errorMsg "Server configuration error"⟩, true)
          else
            (⟨200, .loginOk (jwtSign s user.id user.username now) user.id user.username⟩,
              true)

/-- HTTP response of the login handler. -/
def login (bcryptCompare : String → String → Bool) (secret : Option String)
    (now : Nat) (store : List UserRec) (username password : String) : HttpResponse :=
  (loginTraced bcryptCompare secret now store username password).1

/-- C3 counterexample: the username `" "` is non-empty and absent from the
store, and the password `"x"` is non-empty, yet the login response is the
400 `"Username and password required"` validation error, not the claimed
401 `"Invalid credentials"` (the handler trims the username before the
non-emptiness check). -/
theorem c3_counterexample :
    (" " : String) ≠ "" ∧ ("x" : String) ≠ "" ∧
      login (fun _ _ => false) (some "topsecret") 0 [] " " "x" =
        ⟨400, .errorMsg "Username and password required"⟩ ∧
      login (fun _ _ => false) (some "topsecret") 0 [] " " "x" ≠
        ⟨401, .errorMsg "Invalid credentials"⟩ := by
  refine ⟨by decide, by decide, by decide, by decide⟩

/-- C3 amended: for every username that is non-empty after trimming and every
non-empty password, a login with a username absent from the store and a login
with a present username but failing password verification produce the same
response: 401 with the body error text Invalid credentials. -/
theorem c3_login_indistinguishable (bcryptCompare : String → String → Bool)
    (secret : Option String) (now : Nat) (store : List UserRec)
    (username password : String)
    (hu : (jsTrim username) ≠ "") (hp : password ≠ "") :
    (findByUsername store (jsTrim username) = [] →
      login bcryptCompare secret now store username password =
        ⟨401, .errorMsg "Invalid credentials"⟩)
    ∧ (∀ user, (findByUsername store (jsTrim username)).head? = some user →
        bcryptCompare password user.password = false →
        login bcryptCompare secret now store username password =
          ⟨401, .errorMsg "Invalid credentials"⟩) := by
  constructor
  · intro hnone
    simp [login, loginTraced, hu, hp, hnone]
  · intro user huser hcmp
    simp [login, loginTraced, hu, hp, huser, hcmp]

/-- Witness for the amended C3 theorem: a concrete absent-user login gets the
401 `"Invalid credentials"` response. -/
theorem c3_login_indistinguishable_witness :
    login (fun _ _ => false) (some "s") 0 [⟨1, "alice", "h1"⟩] "bob" "pw" =
      ⟨401, .errorMsg "Invalid credentials"⟩ :=
  (c3_login_indistinguishable (fun _ _ => false) (some "s") 0 [⟨1, "alice", "h1"⟩]
    "bob" "pw" (by decide) (by decide)).1 (by decide)

/-- C4: contrary to the claim, the login handler does not invoke the
credential hasher when no user record is found: for a validation-passing
request with a username absent from the store, `bcrypt.compare` is never
called (no dummy hash), whatever the hasher would return. -/
theorem c4_verify_skipped_for_missing_user (bcryptCompare : String → String → Bool) :
    (loginTraced bcryptCompare (some "topsecret") 0 [] "ghost" "Str0ngPass!1").2 = false
    ∧ (loginTraced bcryptCompare (some "topsecret") 0 [] "ghost" "Str0ngPass!1").1 =
        ⟨401, .errorMsg "Invalid credentials"⟩ :=
  ⟨rfl, rfl⟩

/-! ### Verify endpoint (`server.js` lines 208–226)

The line `const token = req.headers.authorization?.split(' ')[1]` of the
source cuts at every single space; `[1]` is the second segment or
`undefined`; `if (!token)` treats both `undefined` and the empty string as
missing.  The scheme word before the first space is never inspected. -/

/-- JavaScript `String.prototype.split(' ')`. -/
def splitOnSpace : List Char → List (List Char)
  | [] => [[]]
  | c :: cs =>
    let r := splitOnSpace cs
    if c = ' ' then [] :: r
    else
      match r with
      | [] => [[c]]
      | w :: ws => (c :: w) :: ws

/-- Token extraction `req.headers.authorization?.split(' ')[1]`: `none` both when the header
is absent and when there is no second segment. -/
def extractToken : Option String → Option (List Char)
  | none => none
  | some h => (splitOnSpace h.data).get? 1

/-- Lines 221–225 of `server.js`: a successful `jwt.verify` yields
`valid: true` with the decoded ids; a thrown verification error yields
401 `"Invalid token"`. -/
def verifyResponseFor : Option JwtPayload → HttpResponse
  | some p => ⟨200, .verifyOk p.userId p.username⟩
  | none => ⟨401, .errorMsg "Invalid token"⟩

/-- The `POST /api/auth/verify` handler.  `jv` stands for
`jwt.verify(·, JWT_SECRET)` on the extracted token text, returning `none`
when the library throws. -/
def verifyEndpoint (jv : List Char → Option JwtPayload) (secret : Option String)
    (header : Option String) : HttpResponse :=
  match extractToken header with
  | none => ⟨401, .errorMsg "No token provided"⟩
  | some t =>
    if t.isEmpty then ⟨401, .errorMsg "No token provided"⟩
    else if secretFalsy secret then ⟨500, .errorMsg "Server configuration error"⟩
    else verifyResponseFor (jv t)

theorem splitOnSpace_no_space (cs : List Char) (h : ' ' ∉ cs) :
    splitOnSpace cs = [cs] := by
  induction cs with
  | nil => rfl
  | cons c cs ih =>
    have hc : c ≠ ' ' := fun hceq => h (hceq ▸ List.mem_cons_self c cs)
    have hcs : ' ' ∉ cs := fun hmem => h (List.mem_cons_of_mem c hmem)
    simp [splitOnSpace, hc, ih hcs]

theorem splitOnSpace_append (s t : List Char) (hs : ' ' ∉ s) :
    splitOnSpace (s ++ ' ' :: t) = s :: splitOnSpace t := by
  induction s with
  | nil => simp [splitOnSpace]
  | cons c cs ih =>
    have hc : c ≠ ' ' := fun hceq => hs (hceq ▸ List.mem_cons_self c cs)
    have hcs : ' ' ∉ cs := fun hmem => hs (List.mem_cons_of_mem c hmem)
    simp [splitOnSpace, hc, ih hcs]

/-- C6: a token issued by `jwt.sign` at time `t` with secret `s` verifies
successfully with the same secret at time `t`, decoding to the same userId
and username (and the verify handler answers `valid: true`); once the
24-hour expiry has elapsed (`now ≥ t + 86400` seconds), verification of the
same token fails and the handler answers 401 `"Invalid token"`. -/
theorem c6_token_lifecycle (secret username : String) (userId t now : Nat) :
    (jwtVerify secret t (jwtSign secret userId username t) =
        some ⟨userId, username, t, t + 86400⟩
      ∧ verifyResponseFor (jwtVerify secret t (jwtSign secret userId username t)) =
          ⟨200, .verifyOk userId username⟩)
    ∧ (t + 86400 ≤ now →
        verifyResponseFor (jwtVerify secret now (jwtSign secret userId username t)) =
          ⟨401, .errorMsg "Invalid token"⟩) := by
  refine ⟨⟨?_, ?_⟩, ?_⟩
  · simp [jwtVerify, jwtSign]
  · simp [jwtVerify, jwtSign, verifyResponseFor]
  · intro hnow
    have : ¬ now < t + 24 * 60 * 60 := by omega
    simp [jwtVerify, jwtSign, verifyResponseFor, this]

/-- Witness for C6 at a concrete token: fresh verification succeeds and
verification 24 hours later fails. -/
theorem c6_token_lifecycle_witness :
    verifyResponseFor (jwtVerify "s3cret" 1000 (jwtSign "s3cret" 7 "alice_99" 1000)) =
        ⟨200, .verifyOk 7 "alice_99"⟩
      ∧ verifyResponseFor (jwtVerify "s3cret" 87400 (jwtSign "s3cret" 7 "alice_99" 1000)) =
        ⟨401, .errorMsg "Invalid token"⟩ :=
  ⟨(c6_token_lifecycle "s3cret" "alice_99" 7 1000 87400).1.2,
    (c6_token_lifecycle "s3cret" "alice_99" 7 1000 87400).2 (by decide)⟩

/-- C10: the verify handler takes the text after the first space of the
Authorization header and never checks the scheme word: a header without a
space (a bare token) yields 401 `"No token provided"`, while any
`<scheme> <token>` header with a verifiable token succeeds exactly as the
corresponding `Bearer <token>` header does. -/
theorem c10_verify_header_parsing (jv : List Char → Option JwtPayload)
    (secret : Option String) :
    (∀ h : String, ' ' ∉ h.data →
      verifyEndpoint jv secret (some h) = ⟨401, .errorMsg "No token provided"⟩)
    ∧ (∀ scheme tok : String, ' ' ∉ scheme.data → ' ' ∉ tok.data → tok ≠ "" →
        secretFalsy secret = false →
        ∀ p, jv tok.data = some p →
          verifyEndpoint jv secret (some (scheme ++ " " ++ tok)) =
              ⟨200, .verifyOk p.userId p.username⟩
            ∧ verifyEndpoint jv secret (some (scheme ++ " " ++ tok)) =
              verifyEndpoint jv secret (some ("Bearer " ++ tok))) := by
  constructor
  · intro h hns
    simp [verifyEndpoint, extractToken, splitOnSpace_no_space h.data hns]
  · intro scheme tok hs ht htne hsecret p hp
    have hdata : (scheme ++ " " ++ tok).data = scheme.data ++ ' ' :: tok.data := by
      simp [String.data_append]
    have hdata2 : ("Bearer " ++ tok).data = ['B', 'e', 'a', 'r', 'e', 'r'] ++ ' ' :: tok.data := by
      simp [String.data_append]
    have hemp : tok.data.isEmpty = false := by
      cases tok with
      | mk l =>
        cases l with
        | nil => exact absurd rfl htne
        | cons a l2 => simp
    have hbearer : ' ' ∉ ['B', 'e', 'a', 'r', 'e', 'r'] := by decide
    constructor
    · simp [verifyEndpoint, extractToken, hdata, splitOnSpace_append scheme.data tok.data hs,
        splitOnSpace_no_space tok.data ht, hemp, hsecret, hp, verifyResponseFor]
    · simp only [verifyEndpoint, extractToken, hdata, hdata2]
      rw [splitOnSpace_append scheme.data tok.data hs,
        splitOnSpace_append ['B', 'e', 'a', 'r', 'e', 'r'] tok.data hbearer]
      simp [List.get?_cons_succ]

/-- Witness for C10: a bare token is answered `"No token provided"`, and a
`Basic`-scheme header verifies exactly like the `Bearer` one. -/
theorem c10_verify_header_parsing_witness :
    verifyEndpoint (fun t => if t = "tok123".data then some ⟨7, "alice", 0, 86400⟩ else none)
        (some "s3cret") (some "tok123") = ⟨401, .errorMsg "No token provided"⟩
    ∧ verifyEndpoint (fun t => if t = "tok123".data then some ⟨7, "alice", 0, 86400⟩ else none)
        (some "s3cret") (some "Basic tok123") = ⟨200, .verifyOk 7 "alice"⟩ :=
  ⟨(c10_verify_header_parsing _ (some "s3cret")).1 "tok123" (by decide),
    ((c10_verify_header_parsing _ (some "s3cret")).2 "Basic" "tok123" (by decide)
      (by decide) (by decide) (by decide) ⟨7, "alice", 0, 86400⟩ (by decide)).1⟩

/-! ### Rate limiting (`server.js` lines 37–58)

The three `express-rate-limit` configurations are in the source; the
library itself is not, so its windowing behaviour is modelled from the
spec (§4.3): fixed windows per key, a counter created on the first request
and reset once the window elapses, denial without further state change
once the maximum is reached. -/

def loginWindowMs : Nat := 15 * 60 * 1000

def loginMax : Nat := 5

def registerWindowMs : Nat := 60 * 60 * 1000

def registerMax : Nat := 3

def generalWindowMs : Nat := 15 * 60 * 1000

def generalMax : Nat := 100

/-- Rate-limit window of one key: request count and window start (ms). -/
structure Window where
  count : Nat
  windowStart : Nat
deriving Repr, DecidableEq

/-- Modelled from the spec: one admission decision of the fixed-window rate
limiter (`express-rate-limit` is a dependency, not repository code).  A key
with no window gets a fresh window with count 1; an elapsed window is reset;
otherwise the counter is incremented while below the maximum and the request
is denied, the state unchanged, once the maximum is reached. -/
def rlAdmit (windowMs maxReq : Nat) (st : Option Window) (now : Nat) : Bool × Window :=
  match st with
  | none => (true, ⟨1, now⟩)
  | some w =>
    if w.windowStart + windowMs ≤ now then (true, ⟨1, now⟩)
    else if w.count < maxReq then (true, ⟨w.count + 1, w.windowStart⟩)
    else (false, w)

/-- Run a sequence of same-key requests (their times) through the limiter,
collecting the admission decisions. -/
def runAdmits (windowMs maxReq : Nat) : Option Window → List Nat → List Bool × Option Window
  | st, [] => ([], st)
  | st, t :: ts =>
    let d := rlAdmit windowMs maxReq st t
    let rest := runAdmits windowMs maxReq (some d.2) ts
    (d.1 :: rest.1, rest.2)

theorem runAdmits_count_le (windowMs maxReq : Nat) (ts : List Nat) :
    ∀ c s, c ≤ maxReq → (∀ t ∈ ts, t < s + windowMs) →
      (runAdmits windowMs maxReq (some ⟨c, s⟩) ts).1.count true + c ≤ maxReq := by
  induction ts with
  | nil => intro c s hc _; simpa [runAdmits] using hc
  | cons t ts ih =>
    intro c s hc hts
    have htw : ¬ s + windowMs ≤ t := by
      have := hts t (List.mem_cons_self t ts)
      omega
    have hts2 : ∀ u ∈ ts, u < s + windowMs := fun u hu => hts u (List.mem_cons_of_mem t hu)
    by_cases hlt : c < maxReq
    · have := ih (c + 1) s (by omega) hts2
      simp only [runAdmits, rlAdmit, htw, if_false, hlt, if_true, if_neg htw, if_pos hlt]
      simp only [runAdmits] at this
      simp [List.count_cons]
      omega
    · have := ih c s hc hts2
      simp only [runAdmits, rlAdmit, if_neg htw, if_neg hlt]
      simp only [runAdmits] at this
      simp [List.count_cons]
      omega

theorem runAdmits_fresh_count_le (windowMs maxReq : Nat) (hmax : 1 ≤ maxReq)
    (t0 : Nat) (ts : List Nat) (hts : ∀ t ∈ ts, t0 ≤ t ∧ t < t0 + windowMs) :
    (runAdmits windowMs maxReq none ts).1.count true ≤ maxReq := by
  cases ts with
  | nil => simp [runAdmits]
  | cons t ts =>
    obtain ⟨ht0, htw⟩ := hts t (List.mem_cons_self t ts)
    have hrest : ∀ u ∈ ts, u < t + windowMs := by
      intro u hu
      have := hts u (List.mem_cons_of_mem t hu)
      omega
    have := runAdmits_count_le windowMs maxReq ts 1 t hmax hrest
    simp only [runAdmits] at this
    simp [runAdmits, rlAdmit, List.count_cons]
    omega

/-- C5: with the configured policies (login 5 per 15 min, registration 3 per
hour, general 100 per 15 min), any same-key request sequence inside one
window gets at most the configured number of admissions; a request arriving
when the window count has reached the maximum and the window has not
elapsed is denied without state change; and a request arriving once the
window has elapsed is admitted. -/
theorem c5_rate_limiter (t0 : Nat) (ts : List Nat)
    (hts : ∀ t ∈ ts, t0 ≤ t ∧ t < t0 + loginWindowMs)
    (tsr : List Nat) (htsr : ∀ t ∈ tsr, t0 ≤ t ∧ t < t0 + registerWindowMs)
    (tsg : List Nat) (htsg : ∀ t ∈ tsg, t0 ≤ t ∧ t < t0 + generalWindowMs)
    (s now : Nat) :
    (runAdmits loginWindowMs loginMax none ts).1.count true ≤ 5
    ∧ (runAdmits registerWindowMs registerMax none tsr).1.count true ≤ 3
    ∧ (runAdmits generalWindowMs generalMax none tsg).1.count true ≤ 100
    ∧ (now < s + loginWindowMs →
        rlAdmit loginWindowMs loginMax (some ⟨loginMax, s⟩) now = (false, ⟨loginMax, s⟩))
    ∧ (s + loginWindowMs ≤ now →
        (rlAdmit loginWindowMs loginMax (some ⟨loginMax, s⟩) now).1 = true) := by
  refine ⟨runAdmits_fresh_count_le _ _ (by decide) t0 ts hts,
    runAdmits_fresh_count_le _ _ (by decide) t0 tsr htsr,
    runAdmits_fresh_count_le _ _ (by decide) t0 tsg htsg, ?_, ?_⟩
  · intro hn
    have h1 : ¬ s + loginWindowMs ≤ now := by omega
    simp [rlAdmit, h1, loginMax]
  · intro hn
    simp [rlAdmit, hn]

/-- Witness for C5: six same-time login attempts from a fresh key — five
admitted, the sixth denied — and an attempt after the window is admitted. -/
theorem c5_rate_limiter_witness :
    (runAdmits loginWindowMs loginMax none [0, 0, 0, 0, 0, 0]).1.count true ≤ 5
    ∧ rlAdmit loginWindowMs loginMax (some ⟨loginMax, 0⟩) 10 = (false, ⟨loginMax, 0⟩)
    ∧ (rlAdmit loginWindowMs loginMax (some ⟨loginMax, 0⟩) 900000).1 = true := by
  have h := c5_rate_limiter 0 [0, 0, 0, 0, 0, 0] (by decide) [] (by simp) [] (by simp) 0 10
  have h2 := c5_rate_limiter 0 [] (by simp) [] (by simp) [] (by simp) 0 900000
  exact ⟨h.1, h.2.2.2.1 (by decide), h2.2.2.2.2 (by decide)⟩

/-- The sixth same-window login attempt is the first denied one. -/
theorem c5_sixth_login_denied :
    (runAdmits loginWindowMs loginMax none [0, 10, 20, 30, 40, 50]).1 =
      [true, true, true, true, true, false] := by decide

/-! ### Register endpoint (`server.js` lines 126–156)

`validateUsername` (lines 107–112) and `validatePassword` (lines 114–118)
both run; `validationResult` collects their messages in order and the
handler returns only `errors.array()[0].msg`. -/

def isUsernameChar (c : Char) : Bool :=
  isLowerLetter c || isUpperLetter c || isDigitChar c || c = '_' || c = '-'

/-- Messages of the `validateUsername` chain: `trim()` sanitizer,
`isLength 3..30`, then the charset regex `^[a-zA-Z0-9_-]+$`. -/
def usernameErrors (u : String) : List String :=
  let t := jsTrim u
  (if 3 ≤ t.length ∧ t.length ≤ 30 then []
   else ["Username must be between 3 and 30 characters"]) ++
  (if t.data ≠ [] ∧ t.data.all isUsernameChar then []
   else ["Username can only contain letters, numbers, underscores, and hyphens"])

/-- Messages of the server-side `validatePassword` chain: `isLength`
minimum 12, then the complexity regex. -/
def passwordErrors (p : String) : List String :=
  (if 12 ≤ p.length then [] else ["Password must be at least 12 characters"]) ++
  (if serverRegexOk p then []
   else ["Password must contain uppercase, lowercase, number, and special character"])

/-- The register handler after rate-limit admission: the first validation
error, if any, becomes the 400 body; otherwise the password is hashed
(`bhash` stands for `bcrypt.hash(·, 10)`) and the row inserted, a duplicate
username giving the 409 response. -/
def register (bhash : String → String) (store : List UserRec) (u p : String) :
    HttpResponse × List UserRec :=
  match usernameErrors u ++ passwordErrors p with
  | e :: _ => (⟨400, .errorMsg e⟩, store)
  | [] =>
    let t := jsTrim u
    if store.any (fun r => r.username = t) then
      (⟨409, .errorMsg "Username already exists"⟩, store)
    else
      let uid := store.length + 1
      (⟨201, .registerOk uid⟩, store ++ [⟨uid, t, bhash p⟩])

/-- C9 counterexample: registering with the valid username `"alice_99"` and
the password `"abc"` — which misses the length, uppercase, digit and
special-character criteria — returns a 400 whose only error text is the
length message; the missed uppercase criterion appears nowhere in it. -/
theorem c9_counterexample :
    (register (fun h => h) [] "alice_99" "abc").1 =
        ⟨400, .errorMsg "Password must be at least 12 characters"⟩
    ∧ hasUpper "abc" = false
    ∧ ¬ ("upper".data <:+: "Password must be at least 12 characters".data) := by
  refine ⟨by decide, by decide, by decide⟩

/-- C9 amended: a registration whose password fails the policy check gets a
400 carrying a single fixed message — the length message when the password
is shorter than 12 characters, otherwise the one generic complexity
message — and the store is untouched; the individual missing criteria are
not enumerated. -/
theorem c9_register_single_error (bhash : String → String) (store : List UserRec)
    (u p : String) (hu : usernameErrors u = []) (hp : serverPasswordOk p = false) :
    (register bhash store u p).1 =
        ⟨400, .errorMsg (if 12 ≤ p.length then
            "Password must contain uppercase, lowercase, number, and special character"
          else "Password must be at least 12 characters")⟩
    ∧ (register bhash store u p).2 = store := by
  by_cases hlen : 12 ≤ p.length
  · by_cases hre : serverRegexOk p = true
    · exfalso
      rw [serverPasswordOk, hre, decide_eq_true hlen] at hp
      simp at hp
    · simp only [Bool.not_eq_true] at hre
      constructor <;> simp [register, passwordErrors, hu, hlen, hre]
  · constructor <;> simp [register, passwordErrors, hu, hlen]

/-- Witness for the amended C9 theorem at the concrete request
(`"alice_99"`, `"abc"`). -/
theorem c9_register_single_error_witness :
    (register (fun h => h) [] "alice_99" "abc").1 =
        ⟨400, .errorMsg (if 12 ≤ ("abc" : String).length then
            "Password must contain uppercase, lowercase, number, and special character"
          else "Password must be at least 12 characters")⟩ :=
  (c9_register_single_error (fun h => h) [] "alice_99" "abc" (by decide) (by decide)).1

/-! ### Routing and limiter state (`server.js` lines 60–61, 208–226)

`app.use(generalLimiter)` puts every route — `POST /api/auth/verify`
included — behind the general limiter; the login and register limiters
guard only their own routes. -/

/-- Mutable state of the auth service: per-key windows of the three limiters
and the user store. -/
structure AppState where
  generalWindows : String → Option Window
  loginWindows : String → Option Window
  registerWindows : String → Option Window
  store : List UserRec

def updateKey (f : String → Option Window) (key : String) (w : Window) :
    String → Option Window :=
  fun k => if k = key then some w else f k

/-- Endpoint `POST /api/auth/verify` as routed: the request passes the general
limiter for its client key (the denial text is the express-rate-limit default)
and then the handler runs; the handler itself touches neither the store nor
any limiter. -/
def verifyRoute (jv : List Char → Option JwtPayload) (secret : Option String)
    (st : AppState) (key : String) (now : Nat) (header : Option String) :
    HttpResponse × AppState :=
  let d := rlAdmit generalWindowMs generalMax (st.generalWindows key) now
  let st2 : AppState :=
    ⟨updateKey st.generalWindows key d.2, st.loginWindows, st.registerWindows, st.store⟩
  if d.1 then (verifyEndpoint jv secret header, st2)
  else (⟨429, .errorMsg "Too many requests, please try again later."⟩, st2)

/-- C7 counterexample: one call to the verify route does change a rate-limit
window — the general-limiter window of the caller goes from absent to a count of
one — so verification is not free of limiter side effects. -/
theorem c7_counterexample :
    (verifyRoute (fun _ => none) (some "s3cret")
        ⟨fun _ => none, fun _ => none, fun _ => none, []⟩
        "client1" 0 (some "Bearer tok")).2.generalWindows "client1" = some ⟨1, 0⟩
    ∧ (⟨fun _ => none, fun _ => none, fun _ => none, []⟩ : AppState).generalWindows
        "client1" = none := by
  constructor <;> decide

/-- C7 amended: the verify route leaves the credential store and the login
and registration limiter windows unchanged, and touches no general-limiter
window of any other key — but it does mutate the general-limiter window of
the calling key on every call. -/
theorem c7_verify_effects (jv : List Char → Option JwtPayload)
    (secret : Option String) (st : AppState) (key : String) (now : Nat)
    (header : Option String) :
    (verifyRoute jv secret st key now header).2.store = st.store
    ∧ (verifyRoute jv secret st key now header).2.loginWindows = st.loginWindows
    ∧ (verifyRoute jv secret st key now header).2.registerWindows = st.registerWindows
    ∧ (∀ k, k ≠ key →
        (verifyRoute jv secret st key now header).2.generalWindows k =
          st.generalWindows k) := by
  refine ⟨?_, ?_, ?_, fun k hk => ?_⟩ <;>
    simp [verifyRoute, apply_ite Prod.snd, updateKey, *]

/-- Witness for the amended C7 theorem: a concrete call leaves the general
window of another key untouched. -/
theorem c7_verify_effects_witness :
    (verifyRoute (fun _ => none) (some "s3cret")
        ⟨fun _ => none, fun _ => none, fun _ => none, []⟩
        "client1" 0 (some "Bearer tok")).2.generalWindows "client2" = none :=
  (c7_verify_effects (fun _ => none) (some "s3cret")
      ⟨fun _ => none, fun _ => none, fun _ => none, []⟩
      "client1" 0 (some "Bearer tok")).2.2.2 "client2" (by decide)

/-! ### Startup (`server.js` lines 12–13 and 272–275) -/

inductive StartupResult where
  | listening (port : Nat)
  | refusedToStart
deriving Repr, DecidableEq

/-- Configuration read from the environment at startup. -/
structure Config where
  jwtSecret : Option String
  port : Nat

/-- Startup: `app.listen(PORT)` runs unconditionally; nothing between module
load and `listen` reads `JWT_SECRET`. -/
def startup (cfg : Config) : StartupResult := .listening cfg.port

/-- C8 counterexample: with `JWT_SECRET` unset the service still starts
listening — it does not refuse to start. -/
theorem c8_counterexample :
    startup ⟨none, 8001⟩ = .listening 8001
    ∧ startup ⟨none, 8001⟩ ≠ .refusedToStart := by
  constructor <;> decide

/-- C8 amended: the service starts regardless of the secret; with the secret
unset or empty, a login whose credentials verify is refused per-request with
500 `"Server configuration error"`, a verify request carrying a token is
refused the same way, and no login ever answers 200 — so no token is signed
or verified with a default or empty secret. -/
theorem c8_secret_checked_per_request (secret : Option String)
    (hs : secretFalsy secret = true) (port : Nat) :
    startup ⟨secret, port⟩ = .listening port
    ∧ (∀ (bc : String → String → Bool) (now : Nat) (store : List UserRec)
        (u p : String) (user : UserRec),
        jsTrim u ≠ "" → p ≠ "" →
        (findByUsername store (jsTrim u)).head? = some user →
        bc p user.password = true →
        login bc secret now store u p = ⟨500, .errorMsg "Server configuration error"⟩)
    ∧ (∀ (jv : List Char → Option JwtPayload) (header : Option String) (t : List Char),
        extractToken header = some t → t.isEmpty = false →
        verifyEndpoint jv secret header = ⟨500, .errorMsg "Server configuration error"⟩)
    ∧ (∀ (bc : String → String → Bool) (now : Nat) (store : List UserRec)
        (u p : String), (login bc secret now store u p).status ≠ 200) := by
  refine ⟨rfl, ?_, ?_, ?_⟩
  · intro bc now store u p user hu hp huser hbc
    cases secret with
    | none => simp [login, loginTraced, hu, hp, huser, hbc]
    | some s =>
      simp only [secretFalsy] at hs
      simp [login, loginTraced, hu, hp, huser, hbc, hs]
  · intro jv header t ht htne
    simp [verifyEndpoint, ht, htne, hs]
  · intro bc now store u p
    simp only [login, loginTraced]
    split
    · simp
    · split
      · simp
      · split
        · simp
        · split
          · simp
          · split <;> simp_all [secretFalsy]

/-- Witness for the amended C8 theorem: with no secret the service listens and
a credential-passing login is answered 500. -/
theorem c8_secret_checked_per_request_witness :
    startup ⟨none, 8001⟩ = .listening 8001
    ∧ login (fun _ _ => true) none 0 [⟨1, "alice", "h1"⟩] "alice" "pw" =
        ⟨500, .errorMsg "Server configuration error"⟩ :=
  ⟨(c8_secret_checked_per_request none rfl 8001).1,
    (c8_secret_checked_per_request none rfl 8001).2.1 (fun _ _ => true) 0
      [⟨1, "alice", "h1"⟩] "alice" "pw" ⟨1, "alice", "h1"⟩ (by decide) (by decide)
      (by decide) rfl⟩

end AuthCore
